import Mathlib

/-!
Shallow embedding of the aggregation core of the LaMarzoccoBBW dashboard
(src/dashboard.py): the Arduino HTTP status client, the simulated telemetry
source, the cloud telemetry source, and the data coordinator.  Machine floats
are modelled as rationals, wall-clock instants as rational seconds, and the
random jitter drawn by the simulator as explicit parameters.
-/

namespace LaMarzoccoBBW

/-- JSON-like dynamic values, mirroring what json.loads / dash.to_dict
produce in the Python source. -/
inductive JsonVal where
  | null : JsonVal
  | bool (b : Bool) : JsonVal
  | num (q : ℚ) : JsonVal
  | str (s : String) : JsonVal
  | arr (l : List JsonVal) : JsonVal
  | obj (kvs : List (String × JsonVal)) : JsonVal

/-- dict.get(key, default) on a decoded JSON object. -/
def jget (kvs : List (String × JsonVal)) (k : String) (d : JsonVal) : JsonVal :=
  (kvs.lookup k).getD d

/-- Python truthiness of a JSON-like value. -/
def pyBool : JsonVal → Bool
  | .null => false
  | .bool b => b
  | .num q => q ≠ 0
  | .str s => s ≠ ""
  | .arr l => !l.isEmpty
  | .obj kvs => !kvs.isEmpty

/-- Python str() of a JSON-like value (container reprs abbreviated; only the
string case is ever observed by the properties below). -/
def pyStr : JsonVal → String
  | .null => "None"
  | .bool b => if b then "True" else "False"
  | .num q => toString q
  | .str s => s
  | .arr _ => "[...]"
  | .obj _ => "..."

/-- Truncation toward zero, as Python int() applied to a float. -/
def pyTrunc (q : ℚ) : ℤ :=
  if 0 ≤ q then ⌊q⌋ else -⌊-q⌋

/-- The Python exception classes distinguished by ArduinoClient.fetch_status:
ValueError (and its subclasses) versus everything else. -/
inductive PyErr where
  | valueError (msg : String) : PyErr
  | typeError (msg : String) : PyErr

/-- Digits of a base-10 literal. -/
def digitsVal : List Char → Option ℕ
  | [] => none
  | cs =>
    if cs.all Char.isDigit then
      some (cs.foldl (fun a c => a * 10 + (c.toNat - 48)) 0)
    else
      none

/-- Strip leading and trailing whitespace from a character list. -/
def trimChars (cs : List Char) : List Char :=
  ((cs.dropWhile Char.isWhitespace).reverse.dropWhile Char.isWhitespace).reverse

/-- Python str.startswith. -/
def pyStartsWith (s pre : String) : Bool :=
  pre.toList.isPrefixOf s.toList

/-- Python int(s) on a string: optional surrounding whitespace, optional
sign, base-10 digits. -/
def parseIntLit (s : String) : Option ℤ :=
  match trimChars s.toList with
  | '+' :: rest => (digitsVal rest).map Int.ofNat
  | '-' :: rest => (digitsVal rest).map (fun n => -(Int.ofNat n))
  | cs => (digitsVal cs).map Int.ofNat

/-- Python float(s) on a string: optional whitespace, optional sign, decimal
digits with an optional fractional part. -/
def parseFloatLit (s : String) : Option ℚ :=
  let body : List Char → Option ℚ := fun cs =>
    match cs.splitOn '.' with
    | [intPart] => (digitsVal intPart).map (fun n => (n : ℚ))
    | [intPart, fracPart] =>
      if intPart = [] ∧ fracPart = [] then none
      else
        match digitsVal (if intPart = [] then ['0'] else intPart),
            digitsVal (if fracPart = [] then ['0'] else fracPart) with
        | some i, some f => some ((i : ℚ) + (f : ℚ) / (10 : ℚ) ^ fracPart.length)
        | _, _ => none
    | _ => none
  match trimChars s.toList with
  | '+' :: rest => body rest
  | '-' :: rest => (body rest).map Neg.neg
  | cs => body cs

/-- Python int() applied to a JSON-like value. -/
def pyInt : JsonVal → Except PyErr ℤ
  | .num q => .ok (pyTrunc q)
  | .bool b => .ok (if b then 1 else 0)
  | .str s =>
    match parseIntLit s with
    | some n => .ok n
    | none => .error (.valueError "invalid literal for int() with base 10")
  | .null => .error (.typeError "int() argument must be a string or a number, not NoneType")
  | .arr _ => .error (.typeError "int() argument must be a string or a number, not list")
  | .obj _ => .error (.typeError "int() argument must be a string or a number, not dict")

/-- Python float() applied to a JSON-like value. -/
def pyFloat : JsonVal → Except PyErr ℚ
  | .num q => .ok q
  | .bool b => .ok (if b then 1 else 0)
  | .str s =>
    match parseFloatLit s with
    | some q => .ok q
    | none => .error (.valueError "could not convert string to float")
  | .null => .error (.typeError "float() argument must be a string or a number, not NoneType")
  | .arr _ => .error (.typeError "float() argument must be a string or a number, not list")
  | .obj _ => .error (.typeError "float() argument must be a string or a number, not dict")

/-- Whether an Except value is a success. -/
def isOkB {ε α : Type} : Except ε α → Bool
  | .ok _ => true
  | .error _ => false

-- ---------------------------------------------------------------------------
-- Data model: ArduinoStatus (mirror of the Python dataclass and its defaults)
-- ---------------------------------------------------------------------------

/-- Mirror of the ArduinoStatus dataclass of src/dashboard.py. -/
structure ArduinoStatus where
  mode : String := "UNKNOWN"
  paddle : ℤ := 0
  relay_main : ℤ := 0
  override : String := "off"
  flush_active : Bool := false
  gesture_enabled : Bool := true
  gesture_flush_ms : ℤ := 0
  gesture_pulse_min_ms : ℤ := 0
  gesture_pulse_max_ms : ℤ := 0
  raw : List (String × JsonVal) := []
  last_error : Option String := none

/-- ArduinoStatus() with every field at its dataclass default. -/
def ArduinoStatus.initial : ArduinoStatus := {}

/-- Outcome of the HTTP request + body decode performed at the top of
ArduinoClient.fetch_status, before any field mapping runs:
urllib raised URLError, reading or json-decoding the body raised a
ValueError-family exception, some other exception escaped the request, or
json.loads produced a value. -/
inductive FetchResult where
  | urlError (reason : String) : FetchResult
  | bodyError (msg : String) : FetchResult
  | unexpectedError (msg : String) : FetchResult
  | ok (data : JsonVal) : FetchResult

/-- What the except-clauses of fetch_status do to the partially filled
status when an exception is raised mid-parse: ValueError lands in the
Decode branch, any other exception in the Unexpected branch. -/
def applyPyErr (e : PyErr) (s : ArduinoStatus) : ArduinoStatus :=
  match e with
  | .valueError m => { s with last_error := some ("Decode error: " ++ m) }
  | .typeError m => { s with last_error := some ("Unexpected: " ++ m) }

/-- The sequential field assignments of fetch_status after json.loads
produced a dict.  Each int() coercion can raise; assignments already
executed are kept on the returned status, mirroring the mutation order in
the source. -/
def parseObjFields (kvs : List (String × JsonVal)) : ArduinoStatus :=
  let s1 := { ArduinoStatus.initial with
                mode := pyStr (jget kvs "mode" (.str "UNKNOWN")) }
  match pyInt (jget kvs "paddle" (.num 0)) with
  | .error e => applyPyErr e s1
  | .ok paddleVal =>
    let s2 := { s1 with paddle := paddleVal }
    match pyInt (jget kvs "relay_main" (.num 0)) with
    | .error e => applyPyErr e s2
    | .ok relayVal =>
      let s3 := { s2 with relay_main := relayVal }
      let s4 := { s3 with override := pyStr (jget kvs "override" (.str "off")) }
      let s5 := { s4 with flush_active := pyBool (jget kvs "flush_active" (.bool false)) }
      let s6 := { s5 with gesture_enabled := pyBool (jget kvs "gesture_enabled" (.bool true)) }
      match pyInt (jget kvs "gesture_flush_ms" (.num 0)) with
      | .error e => applyPyErr e s6
      | .ok gfm =>
        let s7 := { s6 with gesture_flush_ms := gfm }
        match pyInt (jget kvs "gesture_pulse_min_ms" (.num 0)) with
        | .error e => applyPyErr e s7
        | .ok gmin =>
          let s8 := { s7 with gesture_pulse_min_ms := gmin }
          match pyInt (jget kvs "gesture_pulse_max_ms" (.num 0)) with
          | .error e => applyPyErr e s8
          | .ok gmax =>
            { s8 with gesture_pulse_max_ms := gmax, raw := kvs }

/-- The field-mapping part of fetch_status after json.loads succeeded.
A non-dict top-level value raises AttributeError at the first .get, caught
by the catch-all except clause. -/
def parseStatusFields (data : JsonVal) : ArduinoStatus :=
  match data with
  | .obj kvs => parseObjFields kvs
  | _ =>
    { ArduinoStatus.initial with
        last_error := some "Unexpected: AttributeError: object has no attribute get" }

/-- ArduinoClient.fetch_status of src/dashboard.py, as a function of the
request outcome. -/
def fetch_status (r : FetchResult) : ArduinoStatus :=
  match r with
  | .urlError reason =>
    { ArduinoStatus.initial with last_error := some ("HTTP error: " ++ reason) }
  | .bodyError m =>
    { ArduinoStatus.initial with last_error := some ("Decode error: " ++ m) }
  | .unexpectedError m =>
    { ArduinoStatus.initial with last_error := some ("Unexpected: " ++ m) }
  | .ok data => parseStatusFields data

/-- last_error messages carry one of the three documented category tags. -/
def categorizedMsg (s : String) : Prop :=
  (∃ m, s = "HTTP error: " ++ m) ∨ (∃ m, s = "Decode error: " ++ m) ∨
    (∃ m, s = "Unexpected: " ++ m)

-- ---------------------------------------------------------------------------
-- Data model: ShotMetrics (mirror of the Python dataclass and its defaults)
-- ---------------------------------------------------------------------------

/-- Mirror of the ShotMetrics dataclass of src/dashboard.py. -/
structure ShotMetrics where
  weight_g : ℚ := 0
  flow_g_s : ℚ := 0
  shot_time_ms : ℤ := 0
  target_weight_g : ℚ := 0
  pressure_bar : ℚ := 0
  boiler_temp_c : ℚ := 0
  group_temp_c : ℚ := 0
  brew_state : String := "IDLE"
  scale_connected : Bool := false
  notes : String := ""

/-- ShotMetrics() with every field at its dataclass default. -/
def ShotMetrics.initial : ShotMetrics := {}

-- ---------------------------------------------------------------------------
-- Rounding helpers (Python round with n decimal places: round half to even)
-- ---------------------------------------------------------------------------

/-- Round half to even, the tie-breaking rule of Python round(). -/
def roundHalfEven (q : ℚ) : ℤ :=
  if q - ⌊q⌋ < 1/2 then ⌊q⌋
  else if 1/2 < q - ⌊q⌋ then ⌊q⌋ + 1
  else if ⌊q⌋ % 2 = 0 then ⌊q⌋ else ⌊q⌋ + 1

/-- Python round(x, 1). -/
def round1 (q : ℚ) : ℚ := (roundHalfEven (q * 10) : ℚ) / 10

/-- Python round(x, 2). -/
def round2 (q : ℚ) : ℚ := (roundHalfEven (q * 100) : ℚ) / 100

-- ---------------------------------------------------------------------------
-- SimulatedLaMarzoccoSource
-- ---------------------------------------------------------------------------

/-- Mutable state of SimulatedLaMarzoccoSource.  Underscore-prefixed Python
attributes lose the underscore; times are rational seconds on the monotonic
clock. -/
structure SimState where
  target_weight_g : ℚ
  shot_active : Bool
  shot_start : ℚ
  weight : ℚ
  flow : ℚ
  pressure : ℚ
  boiler_temp : ℚ
  group_temp : ℚ
  last_update : ℚ

namespace SimulatedLaMarzoccoSource

/-- SimulatedLaMarzoccoSource.__init__ at monotonic time now. -/
def init (target_weight_g : ℚ) (now : ℚ) : SimState :=
  { target_weight_g := target_weight_g
    shot_active := false
    shot_start := 0
    weight := 0
    flow := 0
    pressure := 0
    boiler_temp := 94
    group_temp := 93
    last_update := now }

/-- SimulatedLaMarzoccoSource.notify_arduino, with the call instant made
explicit. -/
def notify_arduino (status : ArduinoStatus) (now : ℚ) (s : SimState) : SimState :=
  if status.paddle = 1 ∧ s.shot_active = false then
    { s with shot_active := true, shot_start := now, weight := 0, flow := 0 }
  else if status.paddle = 0 ∧ s.shot_active = true then
    { s with shot_active := false, flow := 0 }
  else s

/-- One draw of each random.uniform jitter used by _tick. -/
structure Jitter where
  flow_j : ℚ
  pressure_j : ℚ
  boiler_j : ℚ
  group_j : ℚ

/-- SimulatedLaMarzoccoSource._tick, with the clock reading and the random
draws made explicit. -/
def tick (now : ℚ) (j : Jitter) (s : SimState) : SimState :=
  let dt := max (1/1000) (now - s.last_update)
  let s := { s with last_update := now }
  if s.shot_active then
    let elapsed := now - s.shot_start
    let flow_peak : ℚ := 13/5
    let ramp := min 1 (elapsed / 4)
    let decay := max (1/5) (1 - s.weight / max 1 (s.target_weight_g * (11/10)))
    let flow := max 0 (flow_peak * ramp * decay + j.flow_j)
    { s with
        flow := flow
        weight := s.weight + flow * dt
        pressure := 2 + 8 * ramp * decay + j.pressure_j
        boiler_temp := s.boiler_temp + j.boiler_j
        group_temp := s.group_temp + j.group_j }
  else
    let flow := s.flow * (9/10)
    let w := s.weight * (999/1000)
    { s with
        flow := flow
        weight := if w < 1/20 then 0 else w
        pressure := s.pressure * (8/10)
        boiler_temp := s.boiler_temp + j.boiler_j
        group_temp := s.group_temp + j.group_j }

/-- A sequence of _tick calls (clock reading and jitter draws per call). -/
def runTicks (ticks : List (ℚ × Jitter)) (s : SimState) : SimState :=
  ticks.foldl (fun acc t => tick t.1 t.2 acc) s

/-- SimulatedLaMarzoccoSource.get_snapshot: ticks the model once, then
returns the rounded reading together with the post-tick state. -/
def get_snapshot (now : ℚ) (j : Jitter) (s : SimState) : ShotMetrics × SimState :=
  let s := tick now j s
  let shotTime : ℤ := if s.shot_active then pyTrunc ((now - s.shot_start) * 1000) else 0
  let state := if s.shot_active then "BREWING" else "IDLE"
  ({ weight_g := max 0 (round1 s.weight)
     flow_g_s := max 0 (round2 s.flow)
     shot_time_ms := shotTime
     target_weight_g := s.target_weight_g
     pressure_bar := max 0 (round2 s.pressure)
     boiler_temp_c := round1 s.boiler_temp
     group_temp_c := round1 s.group_temp
     brew_state := state
     scale_connected := true
     notes := "Simulated" }, s)

end SimulatedLaMarzoccoSource

-- ---------------------------------------------------------------------------
-- CloudLaMarzoccoSource
-- ---------------------------------------------------------------------------

/-- State of CloudLaMarzoccoSource: the readiness event, the stop event,
the last published reading (guarded by the source lock), and the held
fallback simulator. -/
structure CloudState where
  ready : Bool
  stopEvent : Bool
  latest : ShotMetrics
  fallback : SimState

namespace CloudLaMarzoccoSource

/-- Error message of a raised Python exception. -/
def errText : PyErr → String
  | .valueError m => m
  | .typeError m => m

/-- Python iteration over the value found under the widgets key: lists
yield their elements, dicts their keys, strings their characters; anything
else raises TypeError. -/
def pyIterate : JsonVal → Except String (List JsonVal)
  | .arr l => .ok l
  | .obj kvs => .ok (kvs.map fun kv => .str kv.1)
  | .str s => .ok (s.toList.map fun c => .str (String.singleton c))
  | _ => .error "TypeError: object is not iterable"

/-- Attribute access .get on a value that must be a dict; anything else
raises AttributeError. -/
def asDict : JsonVal → Except String (List (String × JsonVal))
  | .obj kvs => .ok kvs
  | _ => .error "AttributeError: object has no attribute get"

/-- The widget loop of _parse_dashboard: routes each widget output by its
widget_type (or code) tag into the machine-status / brew-by-weight /
coffee-boiler slots.  A non-dict widget raises AttributeError. -/
def collectWidgets : List JsonVal → JsonVal → JsonVal → JsonVal →
    Except String (JsonVal × JsonVal × JsonVal)
  | [], ms, bbw, cb => .ok (ms, bbw, cb)
  | w :: rest, ms, bbw, cb =>
    match w with
    | .obj kvs =>
      let wtRaw := jget kvs "widget_type" .null
      let wt := if pyBool wtRaw then wtRaw else jget kvs "code" .null
      let output := jget kvs "output" (.obj [])
      match wt with
      | .str tag =>
        if tag = "CM_MACHINE_STATUS" ∨ tag = "MachineStatus" then
          collectWidgets rest output bbw cb
        else if tag = "CM_BREW_BY_WEIGHT_DOSES" ∨ tag = "BrewByWeightDoses" then
          collectWidgets rest ms output cb
        else if tag = "CM_COFFEE_BOILER" ∨ tag = "CoffeeBoiler" then
          collectWidgets rest ms bbw output
        else collectWidgets rest ms bbw cb
      | _ => collectWidgets rest ms bbw cb
    | _ => .error "AttributeError: object has no attribute get"

/-- The values _parse_dashboard extracts from the widgets before building
the snapshot. -/
structure DashArgs where
  status : JsonVal
  stm : ℤ
  tw : ℚ
  boilerOpt : Option ℚ

/-- The widget-extraction half of _parse_dashboard, independent of the
previously published reading.  nowMs is time.time() in milliseconds. -/
def parseArgs (data : JsonVal) (nowMs : ℚ) : Except String DashArgs := do
  let widgets :=
    match data with
    | .obj kvs => jget kvs "widgets" (.arr [])
    | _ => .arr []
  let wlist ← pyIterate widgets
  let wres ← collectWidgets wlist (.obj []) (.obj []) (.obj [])
  let msKvs ← asDict wres.1
  let status := jget msKvs "status" (.str "UNKNOWN")
  let brewingStart := jget msKvs "brewingStartTime" .null
  let stm : ℤ :=
    match brewingStart with
    | .num n => pyTrunc (max 0 (nowMs - n))
    | .bool b => pyTrunc (max 0 (nowMs - (if b then 1 else 0)))
    | _ => 0
  let tw : ℚ ←
    if pyBool wres.2.1 then do
      let bbwKvs ← asDict wres.2.1
      let d0 := jget bbwKvs "doses" .null
      let doses := if pyBool d0 then d0 else .obj []
      let firstDose :=
        match doses with
        | .obj dk => jget dk "dose_1" .null
        | _ => .null
      match firstDose with
      | .obj fd => (pyFloat (jget fd "weight" (.num 0))).mapError errText
      | _ => pure 0
    else pure 0
  let cbKvs ← asDict wres.2.2
  let bt := jget cbKvs "target" (jget cbKvs "temperature" (.num 0))
  let boilerOpt : Option ℚ ←
    if pyBool bt then do
      let q ← (pyFloat bt).mapError errText
      pure (some q)
    else pure none
  pure { status := status, stm := stm, tw := tw, boilerOpt := boilerOpt }

/-- The snapshot _parse_dashboard builds on success: live weight, flow,
pressure, group temperature and scale state are carried forward from the
previously published reading. -/
def buildFromPrev (previous : ShotMetrics) (a : DashArgs) : ShotMetrics :=
  { weight_g := previous.weight_g
    flow_g_s := previous.flow_g_s
    shot_time_ms := a.stm
    target_weight_g := if a.tw ≠ 0 then a.tw else previous.target_weight_g
    pressure_bar := previous.pressure_bar
    boiler_temp_c :=
      match a.boilerOpt with
      | some q => q
      | none => previous.boiler_temp_c
    group_temp_c := previous.group_temp_c
    brew_state := pyStr a.status
    scale_connected := previous.scale_connected
    notes := "Cloud dashboard" }

/-- CloudLaMarzoccoSource._parse_dashboard: None dashboard yields a fresh
default reading with a diagnostic note; otherwise widget extraction (which
may raise) feeds buildFromPrev. -/
def parse_dashboard (dash : Option JsonVal) (previous : ShotMetrics) (nowMs : ℚ) :
    Except String ShotMetrics :=
  match dash with
  | none => .ok { ShotMetrics.initial with notes := "No dashboard data yet" }
  | some data => (parseArgs data nowMs).map (buildFromPrev previous)

/-- What one iteration of the poll loop in _loop_main observes:
machine.get_dashboard raised, or it completed and left this dashboard
attribute at this wall-clock time. -/
inductive PollOutcome where
  | getFailure (msg : String) : PollOutcome
  | gotDashboard (dash : Option JsonVal) (nowMs : ℚ) : PollOutcome

/-- The reading one iteration of the poll loop in _loop_main publishes as
_latest, as a function of the previously published reading: any exception
in the cycle replaces the reading with a fresh default carrying only a
Cloud error note. -/
def pollCycle (prev : ShotMetrics) (o : PollOutcome) : ShotMetrics :=
  match o with
  | .getFailure m => { ShotMetrics.initial with notes := "Cloud error: " ++ m }
  | .gotDashboard dash nowMs =>
    match parse_dashboard dash prev nowMs with
    | .ok snap => snap
    | .error m => { ShotMetrics.initial with notes := "Cloud error: " ++ m }

/-- CloudLaMarzoccoSource.get_snapshot: placeholder before readiness;
delegation to the fallback simulator when the last note is a Cloud
disabled tag; the last published reading otherwise. -/
def get_snapshot (now : ℚ) (j : SimulatedLaMarzoccoSource.Jitter) (c : CloudState) :
    ShotMetrics × CloudState :=
  if c.ready = false then
    ({ ShotMetrics.initial with notes := "Connecting to cloud..." }, c)
  else if pyStartsWith c.latest.notes "Cloud disabled" then
    let p := SimulatedLaMarzoccoSource.get_snapshot now j c.fallback
    (p.1, { c with fallback := p.2 })
  else (c.latest, c)

/-- CloudLaMarzoccoSource.stop: sets the stop event of the background
loop. -/
def stop (c : CloudState) : CloudState :=
  { c with stopEvent := true }

end CloudLaMarzoccoSource

-- ---------------------------------------------------------------------------
-- DataCoordinator
-- ---------------------------------------------------------------------------

/-- The parts of DataCoordinator state that stop() can touch: its own stop
event and the active telemetry source (some cloud state when a
CloudLaMarzoccoSource is active, none when the simulator is). -/
structure CoordinatorState where
  stopFlag : Bool
  cloud : Option CloudState

namespace DataCoordinator

/-- DataCoordinator.stop of src/dashboard.py: sets the coordinator stop
event; nothing else. -/
def stop (c : CoordinatorState) : CoordinatorState :=
  { c with stopFlag := true }

end DataCoordinator

-- ---------------------------------------------------------------------------
-- Helper lemmas
-- ---------------------------------------------------------------------------

theorem le_roundHalfEven (q : ℚ) : ⌊q⌋ ≤ roundHalfEven q := by
  unfold roundHalfEven
  split_ifs <;> omega

theorem roundHalfEven_le (q : ℚ) : roundHalfEven q ≤ ⌊q⌋ + 1 := by
  unfold roundHalfEven
  split_ifs <;> omega

theorem roundHalfEven_mono {q r : ℚ} (h : q ≤ r) :
    roundHalfEven q ≤ roundHalfEven r := by
  have hf : ⌊q⌋ ≤ ⌊r⌋ := Int.floor_mono h
  rcases lt_or_eq_of_le hf with hlt | heq
  · calc roundHalfEven q ≤ ⌊q⌋ + 1 := roundHalfEven_le q
      _ ≤ ⌊r⌋ := by omega
      _ ≤ roundHalfEven r := le_roundHalfEven r
  · have hfr : (⌊q⌋ : ℚ) = (⌊r⌋ : ℚ) := by rw [heq]
    have hsub : q - (⌊q⌋ : ℚ) ≤ r - (⌊q⌋ : ℚ) := by linarith
    unfold roundHalfEven
    rw [← heq]
    split_ifs <;> first | omega | linarith

theorem roundHalfEven_eq_zero {q : ℚ} (h0 : 0 ≤ q) (h1 : q < 1/2) :
    roundHalfEven q = 0 := by
  have hq : ⌊q⌋ = 0 := by
    rw [Int.floor_eq_zero_iff]
    constructor
    · exact h0
    · linarith
  unfold roundHalfEven
  rw [hq]
  have : q - ((0 : ℤ) : ℚ) < 1/2 := by push_cast; linarith
  rw [if_pos this]

theorem round1_mono {q r : ℚ} (h : q ≤ r) : round1 q ≤ round1 r := by
  unfold round1
  have := roundHalfEven_mono (q := q * 10) (r := r * 10) (by linarith)
  have hc : ((roundHalfEven (q * 10) : ℚ)) ≤ ((roundHalfEven (r * 10) : ℚ)) := by
    exact_mod_cast this
  linarith

theorem parseObjFields_error (kvs : List (String × JsonVal)) (s : String)
    (h : (parseObjFields kvs).last_error = some s) :
    categorizedMsg s ∧ (parseObjFields kvs).raw = [] ∧
    (parseObjFields kvs).gesture_pulse_max_ms = 0 := by
  simp only [parseObjFields] at h ⊢
  cases h1 : pyInt (jget kvs "paddle" (.num 0)) with
  | error e =>
    simp only [h1] at h ⊢
    cases e with
    | valueError m =>
      simp only [applyPyErr, Option.some.injEq] at h
      exact ⟨Or.inr (Or.inl ⟨m, h.symm⟩), rfl, rfl⟩
    | typeError m =>
      simp only [applyPyErr, Option.some.injEq] at h
      exact ⟨Or.inr (Or.inr ⟨m, h.symm⟩), rfl, rfl⟩
  | ok paddleVal =>
    simp only [h1] at h ⊢
    cases h2 : pyInt (jget kvs "relay_main" (.num 0)) with
    | error e =>
      simp only [h2] at h ⊢
      cases e with
      | valueError m =>
        simp only [applyPyErr, Option.some.injEq] at h
        exact ⟨Or.inr (Or.inl ⟨m, h.symm⟩), rfl, rfl⟩
      | typeError m =>
        simp only [applyPyErr, Option.some.injEq] at h
        exact ⟨Or.inr (Or.inr ⟨m, h.symm⟩), rfl, rfl⟩
    | ok relayVal =>
      simp only [h2] at h ⊢
      cases h3 : pyInt (jget kvs "gesture_flush_ms" (.num 0)) with
      | error e =>
        simp only [h3] at h ⊢
        cases e with
        | valueError m =>
          simp only [applyPyErr, Option.some.injEq] at h
          exact ⟨Or.inr (Or.inl ⟨m, h.symm⟩), rfl, rfl⟩
        | typeError m =>
          simp only [applyPyErr, Option.some.injEq] at h
          exact ⟨Or.inr (Or.inr ⟨m, h.symm⟩), rfl, rfl⟩
      | ok gfm =>
        simp only [h3] at h ⊢
        cases h4 : pyInt (jget kvs "gesture_pulse_min_ms" (.num 0)) with
        | error e =>
          simp only [h4] at h ⊢
          cases e with
          | valueError m =>
            simp only [applyPyErr, Option.some.injEq] at h
            exact ⟨Or.inr (Or.inl ⟨m, h.symm⟩), rfl, rfl⟩
          | typeError m =>
            simp only [applyPyErr, Option.some.injEq] at h
            exact ⟨Or.inr (Or.inr ⟨m, h.symm⟩), rfl, rfl⟩
        | ok gmin =>
          simp only [h4] at h ⊢
          cases h5 : pyInt (jget kvs "gesture_pulse_max_ms" (.num 0)) with
          | error e =>
            simp only [h5] at h ⊢
            cases e with
            | valueError m =>
              simp only [applyPyErr, Option.some.injEq] at h
              exact ⟨Or.inr (Or.inl ⟨m, h.symm⟩), rfl, rfl⟩
            | typeError m =>
              simp only [applyPyErr, Option.some.injEq] at h
              exact ⟨Or.inr (Or.inr ⟨m, h.symm⟩), rfl, rfl⟩
          | ok gmax =>
            simp only [h5] at h
            simp [ArduinoStatus.initial] at h

theorem pyInt_default_zero {kvs : List (String × JsonVal)} {k : String} {v : ℤ}
    (hlk : kvs.lookup k = none) (h : pyInt (jget kvs k (.num 0)) = .ok v) :
    v = 0 := by
  simp only [jget, hlk, Option.getD, pyInt, pyTrunc] at h
  norm_num at h
  exact h.symm

theorem pyStr_default {kvs : List (String × JsonVal)} {k d : String}
    (hlk : kvs.lookup k = none) : pyStr (jget kvs k (.str d)) = d := by
  simp [jget, hlk, pyStr]

theorem pyBool_default {kvs : List (String × JsonVal)} {k : String} {b : Bool}
    (hlk : kvs.lookup k = none) : pyBool (jget kvs k (.bool b)) = b := by
  simp [jget, hlk, pyBool]

namespace SimulatedLaMarzoccoSource

theorem tick_shot_active (now : ℚ) (j : Jitter) (s : SimState) :
    (tick now j s).shot_active = s.shot_active := by
  simp only [tick]
  split_ifs <;> rfl

theorem tick_weight_le_active (now : ℚ) (j : Jitter) (s : SimState)
    (h : s.shot_active = true) : s.weight ≤ (tick now j s).weight := by
  simp only [tick, h, if_true]
  have hdt : (0 : ℚ) ≤ max (1/1000) (now - s.last_update) :=
    le_trans (by norm_num) (le_max_left _ _)
  have hfl : (0 : ℚ) ≤
      max 0 ((13/5) * min 1 ((now - s.shot_start) / 4) *
        max (1/5) (1 - s.weight / max 1 (s.target_weight_g * (11/10))) + j.flow_j) :=
    le_max_left _ _
  nlinarith

theorem runTicks_shot_active (ticks : List (ℚ × Jitter)) (s : SimState) :
    (runTicks ticks s).shot_active = s.shot_active := by
  induction ticks generalizing s with
  | nil => rfl
  | cons t rest ih =>
    simp only [runTicks, List.foldl_cons] at *
    rw [ih, tick_shot_active]

theorem runTicks_weight_le_active (ticks : List (ℚ × Jitter)) (s : SimState)
    (h : s.shot_active = true) : s.weight ≤ (runTicks ticks s).weight := by
  induction ticks generalizing s with
  | nil => exact le_refl _
  | cons t rest ih =>
    simp only [runTicks, List.foldl_cons] at *
    calc s.weight ≤ (tick t.1 t.2 s).weight := tick_weight_le_active _ _ _ h
      _ ≤ _ := ih _ (by rw [tick_shot_active]; exact h)

theorem get_snapshot_snd (now : ℚ) (j : Jitter) (s : SimState) :
    (get_snapshot now j s).2 = tick now j s := rfl

theorem get_snapshot_weight_g (now : ℚ) (j : Jitter) (s : SimState) :
    (get_snapshot now j s).1.weight_g = max 0 (round1 (tick now j s).weight) := rfl

theorem get_snapshot_brew_state (now : ℚ) (j : Jitter) (s : SimState) :
    (get_snapshot now j s).1.brew_state =
      if (tick now j s).shot_active then "BREWING" else "IDLE" := rfl

theorem get_snapshot_shot_time (now : ℚ) (j : Jitter) (s : SimState) :
    (get_snapshot now j s).1.shot_time_ms =
      if (tick now j s).shot_active then
        pyTrunc ((now - (tick now j s).shot_start) * 1000)
      else 0 := rfl

theorem tick_shot_start (now : ℚ) (j : Jitter) (s : SimState) :
    (tick now j s).shot_start = s.shot_start := by
  simp only [tick]
  split_ifs <;> rfl

theorem tick_fresh_shot_weight (now : ℚ) (j : Jitter) (s : SimState)
    (hs : s.shot_active = true) (hstart : s.shot_start = now) (hw : s.weight = 0) :
    (tick now j s).weight = max 0 j.flow_j * max (1/1000) (now - s.last_update) := by
  have hmin : min (1 : ℚ) 0 = 0 := min_eq_right (by norm_num)
  simp only [tick, hs, if_true, hstart, hw, sub_self, zero_div, hmin, mul_zero,
    zero_mul, zero_add]

end SimulatedLaMarzoccoSource

/-- A CloudLaMarzoccoSource state with an active background loop whose stop
event has not been signalled. -/
def sampleCloudActive : CloudState :=
  { ready := true
    stopEvent := false
    latest := { ShotMetrics.initial with notes := "Cloud dashboard" }
    fallback := SimulatedLaMarzoccoSource.init 36 0 }

/-- A DataCoordinator whose active telemetry source is sampleCloudActive. -/
def sampleCoordinator : CoordinatorState :=
  { stopFlag := false, cloud := some sampleCloudActive }

-- ---------------------------------------------------------------------------
-- Claim theorems
-- ---------------------------------------------------------------------------

/-- C1: evaluation of the code at the failing input.  DataCoordinator.stop on
a coordinator with an active remote source signals only the coordinator stop
event; the remote source state is untouched, so its stop event stays unset,
although CloudLaMarzoccoSource.stop would set it.  The code therefore does
not propagate stop() to an active RemoteTelemetrySource as the spec
requires. -/
theorem c1_stop_does_not_propagate :
    (DataCoordinator.stop sampleCoordinator).stopFlag = true ∧
    (DataCoordinator.stop sampleCoordinator).cloud = some sampleCloudActive ∧
    sampleCloudActive.stopEvent = false ∧
    (CloudLaMarzoccoSource.stop sampleCloudActive).stopEvent = true :=
  ⟨rfl, rfl, rfl, rfl⟩

/-- C8: when the remote source is ready and its last recorded note carries
the Cloud disabled tag, get_snapshot returns exactly what the held fallback
simulated source returns at that moment, and records the fallback state the
simulator leaves behind. -/
theorem c8_disabled_delegates (c : CloudState) (now : ℚ)
    (j : SimulatedLaMarzoccoSource.Jitter) (hr : c.ready = true)
    (hn : pyStartsWith c.latest.notes "Cloud disabled" = true) :
    (CloudLaMarzoccoSource.get_snapshot now j c).1 =
      (SimulatedLaMarzoccoSource.get_snapshot now j c.fallback).1 ∧
    (CloudLaMarzoccoSource.get_snapshot now j c).2.fallback =
      (SimulatedLaMarzoccoSource.get_snapshot now j c.fallback).2 := by
  simp [CloudLaMarzoccoSource.get_snapshot, hr, hn]

/-- C8 witness: a ready cloud state whose note carries the disabled tag
delegates to its fallback simulator. -/
theorem c8_disabled_delegates_witness :
    (CloudLaMarzoccoSource.get_snapshot 7 ⟨0, 0, 0, 0⟩
        { ready := true, stopEvent := false
          latest := { ShotMetrics.initial with notes := "Cloud disabled: boom" }
          fallback := SimulatedLaMarzoccoSource.init 36 0 }).1 =
      (SimulatedLaMarzoccoSource.get_snapshot 7 ⟨0, 0, 0, 0⟩
        (SimulatedLaMarzoccoSource.init 36 0)).1 ∧
    (CloudLaMarzoccoSource.get_snapshot 7 ⟨0, 0, 0, 0⟩
        { ready := true, stopEvent := false
          latest := { ShotMetrics.initial with notes := "Cloud disabled: boom" }
          fallback := SimulatedLaMarzoccoSource.init 36 0 }).2.fallback =
      (SimulatedLaMarzoccoSource.get_snapshot 7 ⟨0, 0, 0, 0⟩
        (SimulatedLaMarzoccoSource.init 36 0)).2 :=
  c8_disabled_delegates _ 7 ⟨0, 0, 0, 0⟩ rfl (by decide)

/-- C9: before readiness is signalled, every get_snapshot call returns the
same fixed placeholder: all fields at their ShotMetrics defaults and the
Connecting to cloud note. -/
theorem c9_connecting_placeholder (c : CloudState) (now : ℚ)
    (j : SimulatedLaMarzoccoSource.Jitter) (h : c.ready = false) :
    (CloudLaMarzoccoSource.get_snapshot now j c).1 =
      { ShotMetrics.initial with notes := "Connecting to cloud..." } := by
  simp [CloudLaMarzoccoSource.get_snapshot, h]

/-- C9 witness: a not-yet-ready cloud state yields the connecting
placeholder. -/
theorem c9_connecting_placeholder_witness :
    (CloudLaMarzoccoSource.get_snapshot 3 ⟨1, 2, 3, 4⟩
        { ready := false, stopEvent := false, latest := ShotMetrics.initial
          fallback := SimulatedLaMarzoccoSource.init 36 0 }).1 =
      { ShotMetrics.initial with notes := "Connecting to cloud..." } :=
  c9_connecting_placeholder _ 3 ⟨1, 2, 3, 4⟩ rfl

/-- C10: notify_arduino is idempotent — a second consecutive call with the
same ArduinoStatus (at any later instant) leaves the state exactly as after
the first — and a paddle value other than 0 and 1 leaves the state
completely unchanged. -/
theorem c10_notify_idempotent (status : ArduinoStatus) (now1 now2 : ℚ)
    (s : SimState) :
    SimulatedLaMarzoccoSource.notify_arduino status now2
        (SimulatedLaMarzoccoSource.notify_arduino status now1 s) =
      SimulatedLaMarzoccoSource.notify_arduino status now1 s ∧
    (status.paddle ≠ 0 → status.paddle ≠ 1 →
      SimulatedLaMarzoccoSource.notify_arduino status now1 s = s) := by
  constructor
  · by_cases h1 : status.paddle = 1 <;> by_cases h0 : status.paddle = 0 <;>
      by_cases ha : s.shot_active = false <;>
      simp_all [SimulatedLaMarzoccoSource.notify_arduino]
  · intro h0 h1
    simp [SimulatedLaMarzoccoSource.notify_arduino, h0, h1]

/-- C10 witness: a paddle value of 2 leaves the simulator state unchanged,
and repeating it is idempotent. -/
theorem c10_notify_idempotent_witness :
    (SimulatedLaMarzoccoSource.notify_arduino { paddle := 2 } 4
        (SimulatedLaMarzoccoSource.notify_arduino { paddle := 2 } 3
          (SimulatedLaMarzoccoSource.init 36 0)) =
      SimulatedLaMarzoccoSource.notify_arduino { paddle := 2 } 3
        (SimulatedLaMarzoccoSource.init 36 0)) ∧
    SimulatedLaMarzoccoSource.notify_arduino { paddle := 2 } 3
        (SimulatedLaMarzoccoSource.init 36 0) =
      SimulatedLaMarzoccoSource.init 36 0 :=
  ⟨(c10_notify_idempotent { paddle := 2 } 3 4 (SimulatedLaMarzoccoSource.init 36 0)).1,
    (c10_notify_idempotent { paddle := 2 } 3 4 (SimulatedLaMarzoccoSource.init 36 0)).2
      (by decide) (by decide)⟩

/-- C2 counterexample: a decodable JSON body whose mode field parses but
whose paddle field fails int() coercion yields a categorized Decode error,
yet the returned mode is the parsed value, not the default UNKNOWN — so not
every other field holds its default. -/
theorem c2_counterexample :
    (fetch_status (.ok (.obj [("mode", .str "COFFEE"), ("paddle", .str "abc")]))).last_error =
        some "Decode error: invalid literal for int() with base 10" ∧
    (fetch_status (.ok (.obj [("mode", .str "COFFEE"), ("paddle", .str "abc")]))).mode =
        "COFFEE" ∧
    ("COFFEE" : String) ≠ "UNKNOWN" := by
  refine ⟨by decide, by decide, by decide⟩

/-- C2 (amended): fetch_status never raises; on any failure last_error is
categorized as HTTP error, Decode error or Unexpected, and every field not
yet assigned when the exception was raised holds its default: network
failure, an undecodable body, any other pre-parse error and a non-dict
payload leave every other field at its default, and a failure in one of the
five int() coercions leaves every field from that assignment onward
(raw included) at its default, while the fields assigned before it retain
their parsed values. -/
theorem c2_fetch_status_error_handling :
    (∀ reason, fetch_status (.urlError reason) =
        { ArduinoStatus.initial with last_error := some ("HTTP error: " ++ reason) }) ∧
    (∀ msg, fetch_status (.bodyError msg) =
        { ArduinoStatus.initial with last_error := some ("Decode error: " ++ msg) }) ∧
    (∀ msg, fetch_status (.unexpectedError msg) =
        { ArduinoStatus.initial with last_error := some ("Unexpected: " ++ msg) }) ∧
    (fetch_status (.ok .null) = { ArduinoStatus.initial with
        last_error := some "Unexpected: AttributeError: object has no attribute get" } ∧
      (∀ b, fetch_status (.ok (.bool b)) = { ArduinoStatus.initial with
        last_error := some "Unexpected: AttributeError: object has no attribute get" }) ∧
      (∀ q, fetch_status (.ok (.num q)) = { ArduinoStatus.initial with
        last_error := some "Unexpected: AttributeError: object has no attribute get" }) ∧
      (∀ t, fetch_status (.ok (.str t)) = { ArduinoStatus.initial with
        last_error := some "Unexpected: AttributeError: object has no attribute get" }) ∧
      (∀ l, fetch_status (.ok (.arr l)) = { ArduinoStatus.initial with
        last_error := some "Unexpected: AttributeError: object has no attribute get" })) ∧
    (∀ kvs e, pyInt (jget kvs "paddle" (.num 0)) = .error e →
      fetch_status (.ok (.obj kvs)) =
        applyPyErr e { ArduinoStatus.initial with
          mode := pyStr (jget kvs "mode" (.str "UNKNOWN")) }) ∧
    (∀ kvs e v1, pyInt (jget kvs "paddle" (.num 0)) = .ok v1 →
      pyInt (jget kvs "relay_main" (.num 0)) = .error e →
      fetch_status (.ok (.obj kvs)) =
        applyPyErr e { ArduinoStatus.initial with
          mode := pyStr (jget kvs "mode" (.str "UNKNOWN"))
          paddle := v1 }) ∧
    (∀ kvs e v1 v2, pyInt (jget kvs "paddle" (.num 0)) = .ok v1 →
      pyInt (jget kvs "relay_main" (.num 0)) = .ok v2 →
      pyInt (jget kvs "gesture_flush_ms" (.num 0)) = .error e →
      fetch_status (.ok (.obj kvs)) =
        applyPyErr e { ArduinoStatus.initial with
          mode := pyStr (jget kvs "mode" (.str "UNKNOWN"))
          paddle := v1
          relay_main := v2
          override := pyStr (jget kvs "override" (.str "off"))
          flush_active := pyBool (jget kvs "flush_active" (.bool false))
          gesture_enabled := pyBool (jget kvs "gesture_enabled" (.bool true)) }) ∧
    (∀ kvs e v1 v2 v3, pyInt (jget kvs "paddle" (.num 0)) = .ok v1 →
      pyInt (jget kvs "relay_main" (.num 0)) = .ok v2 →
      pyInt (jget kvs "gesture_flush_ms" (.num 0)) = .ok v3 →
      pyInt (jget kvs "gesture_pulse_min_ms" (.num 0)) = .error e →
      fetch_status (.ok (.obj kvs)) =
        applyPyErr e { ArduinoStatus.initial with
          mode := pyStr (jget kvs "mode" (.str "UNKNOWN"))
          paddle := v1
          relay_main := v2
          override := pyStr (jget kvs "override" (.str "off"))
          flush_active := pyBool (jget kvs "flush_active" (.bool false))
          gesture_enabled := pyBool (jget kvs "gesture_enabled" (.bool true))
          gesture_flush_ms := v3 }) ∧
    (∀ kvs e v1 v2 v3 v4, pyInt (jget kvs "paddle" (.num 0)) = .ok v1 →
      pyInt (jget kvs "relay_main" (.num 0)) = .ok v2 →
      pyInt (jget kvs "gesture_flush_ms" (.num 0)) = .ok v3 →
      pyInt (jget kvs "gesture_pulse_min_ms" (.num 0)) = .ok v4 →
      pyInt (jget kvs "gesture_pulse_max_ms" (.num 0)) = .error e →
      fetch_status (.ok (.obj kvs)) =
        applyPyErr e { ArduinoStatus.initial with
          mode := pyStr (jget kvs "mode" (.str "UNKNOWN"))
          paddle := v1
          relay_main := v2
          override := pyStr (jget kvs "override" (.str "off"))
          flush_active := pyBool (jget kvs "flush_active" (.bool false))
          gesture_enabled := pyBool (jget kvs "gesture_enabled" (.bool true))
          gesture_flush_ms := v3
          gesture_pulse_min_ms := v4 }) ∧
    (∀ r s, (fetch_status r).last_error = some s → categorizedMsg s) := by
  refine ⟨fun reason => rfl, fun msg => rfl, fun msg => rfl,
    ⟨rfl, fun b => rfl, fun q => rfl, fun t => rfl, fun l => rfl⟩,
    ?_, ?_, ?_, ?_, ?_, ?_⟩
  · intro kvs e h1
    cases e <;>
      simp only [fetch_status, parseStatusFields, parseObjFields, h1, applyPyErr]
  · intro kvs e v1 h1 h2
    cases e <;>
      simp only [fetch_status, parseStatusFields, parseObjFields, h1, h2, applyPyErr]
  · intro kvs e v1 v2 h1 h2 h3
    cases e <;>
      simp only [fetch_status, parseStatusFields, parseObjFields, h1, h2, h3, applyPyErr]
  · intro kvs e v1 v2 v3 h1 h2 h3 h4
    cases e <;>
      simp only [fetch_status, parseStatusFields, parseObjFields, h1, h2, h3, h4,
        applyPyErr]
  · intro kvs e v1 v2 v3 v4 h1 h2 h3 h4 h5
    cases e <;>
      simp only [fetch_status, parseStatusFields, parseObjFields, h1, h2, h3, h4, h5,
        applyPyErr]
  · intro r s h
    cases r with
    | urlError reason =>
      simp only [fetch_status, Option.some.injEq] at h
      exact Or.inl ⟨reason, h.symm⟩
    | bodyError msg =>
      simp only [fetch_status, Option.some.injEq] at h
      exact Or.inr (Or.inl ⟨msg, h.symm⟩)
    | unexpectedError msg =>
      simp only [fetch_status, Option.some.injEq] at h
      exact Or.inr (Or.inr ⟨msg, h.symm⟩)
    | ok data =>
      cases data with
      | obj kvs => exact (parseObjFields_error kvs s h).1
      | null =>
        simp only [fetch_status, parseStatusFields, Option.some.injEq] at h
        exact Or.inr (Or.inr ⟨"AttributeError: object has no attribute get",
          by rw [← h]; decide⟩)
      | bool b =>
        simp only [fetch_status, parseStatusFields, Option.some.injEq] at h
        exact Or.inr (Or.inr ⟨"AttributeError: object has no attribute get",
          by rw [← h]; decide⟩)
      | num q =>
        simp only [fetch_status, parseStatusFields, Option.some.injEq] at h
        exact Or.inr (Or.inr ⟨"AttributeError: object has no attribute get",
          by rw [← h]; decide⟩)
      | str t =>
        simp only [fetch_status, parseStatusFields, Option.some.injEq] at h
        exact Or.inr (Or.inr ⟨"AttributeError: object has no attribute get",
          by rw [← h]; decide⟩)
      | arr l =>
        simp only [fetch_status, parseStatusFields, Option.some.injEq] at h
        exact Or.inr (Or.inr ⟨"AttributeError: object has no attribute get",
          by rw [← h]; decide⟩)

/-- C2 witness: a concrete network failure yields the fully defaulted status
with the categorized message, and a concrete paddle-coercion failure leaves
exactly the already-parsed mode plus the Decode error on an otherwise
defaulted status. -/
theorem c2_fetch_status_error_handling_witness :
    fetch_status (.urlError "timed out") =
      { ArduinoStatus.initial with last_error := some ("HTTP error: " ++ "timed out") } ∧
    fetch_status (.ok (.obj [("mode", .str "COFFEE"), ("paddle", .str "abc")])) =
      applyPyErr (.valueError "invalid literal for int() with base 10")
        { ArduinoStatus.initial with
          mode := pyStr (jget [("mode", .str "COFFEE"), ("paddle", .str "abc")]
            "mode" (.str "UNKNOWN")) } ∧
    categorizedMsg "HTTP error: timed out" :=
  ⟨c2_fetch_status_error_handling.1 "timed out",
    c2_fetch_status_error_handling.2.2.2.2.1
      [("mode", .str "COFFEE"), ("paddle", .str "abc")]
      (.valueError "invalid literal for int() with base 10") rfl,
    c2_fetch_status_error_handling.2.2.2.2.2.2.2.2.2
      (.urlError "timed out") "HTTP error: timed out" rfl⟩

/-- C7: on a well-formed JSON object whose present known fields coerce
successfully, fetch_status reports no error, preserves the full decoded
payload in raw, and gives each absent known field its documented default. -/
theorem c7_missing_fields_default (kvs : List (String × JsonVal))
    (hp : isOkB (pyInt (jget kvs "paddle" (.num 0))) = true)
    (hr : isOkB (pyInt (jget kvs "relay_main" (.num 0))) = true)
    (hf : isOkB (pyInt (jget kvs "gesture_flush_ms" (.num 0))) = true)
    (hmn : isOkB (pyInt (jget kvs "gesture_pulse_min_ms" (.num 0))) = true)
    (hmx : isOkB (pyInt (jget kvs "gesture_pulse_max_ms" (.num 0))) = true) :
    (fetch_status (.ok (.obj kvs))).last_error = none ∧
    (fetch_status (.ok (.obj kvs))).raw = kvs ∧
    (kvs.lookup "mode" = none → (fetch_status (.ok (.obj kvs))).mode = "UNKNOWN") ∧
    (kvs.lookup "paddle" = none → (fetch_status (.ok (.obj kvs))).paddle = 0) ∧
    (kvs.lookup "relay_main" = none → (fetch_status (.ok (.obj kvs))).relay_main = 0) ∧
    (kvs.lookup "override" = none → (fetch_status (.ok (.obj kvs))).override = "off") ∧
    (kvs.lookup "flush_active" = none →
      (fetch_status (.ok (.obj kvs))).flush_active = false) ∧
    (kvs.lookup "gesture_enabled" = none →
      (fetch_status (.ok (.obj kvs))).gesture_enabled = true) ∧
    (kvs.lookup "gesture_flush_ms" = none →
      (fetch_status (.ok (.obj kvs))).gesture_flush_ms = 0) ∧
    (kvs.lookup "gesture_pulse_min_ms" = none →
      (fetch_status (.ok (.obj kvs))).gesture_pulse_min_ms = 0) ∧
    (kvs.lookup "gesture_pulse_max_ms" = none →
      (fetch_status (.ok (.obj kvs))).gesture_pulse_max_ms = 0) := by
  obtain ⟨pv, h1⟩ : ∃ v, pyInt (jget kvs "paddle" (.num 0)) = .ok v := by
    cases hx : pyInt (jget kvs "paddle" (.num 0)) with
    | ok v => exact ⟨v, rfl⟩
    | error e => rw [hx] at hp; simp [isOkB] at hp
  obtain ⟨rv, h2⟩ : ∃ v, pyInt (jget kvs "relay_main" (.num 0)) = .ok v := by
    cases hx : pyInt (jget kvs "relay_main" (.num 0)) with
    | ok v => exact ⟨v, rfl⟩
    | error e => rw [hx] at hr; simp [isOkB] at hr
  obtain ⟨fv, h3⟩ : ∃ v, pyInt (jget kvs "gesture_flush_ms" (.num 0)) = .ok v := by
    cases hx : pyInt (jget kvs "gesture_flush_ms" (.num 0)) with
    | ok v => exact ⟨v, rfl⟩
    | error e => rw [hx] at hf; simp [isOkB] at hf
  obtain ⟨nv, h4⟩ : ∃ v, pyInt (jget kvs "gesture_pulse_min_ms" (.num 0)) = .ok v := by
    cases hx : pyInt (jget kvs "gesture_pulse_min_ms" (.num 0)) with
    | ok v => exact ⟨v, rfl⟩
    | error e => rw [hx] at hmn; simp [isOkB] at hmn
  obtain ⟨xv, h5⟩ : ∃ v, pyInt (jget kvs "gesture_pulse_max_ms" (.num 0)) = .ok v := by
    cases hx : pyInt (jget kvs "gesture_pulse_max_ms" (.num 0)) with
    | ok v => exact ⟨v, rfl⟩
    | error e => rw [hx] at hmx; simp [isOkB] at hmx
  simp only [fetch_status, parseStatusFields, parseObjFields, h1, h2, h3, h4, h5]
  refine ⟨by trivial, by trivial, ?_, ?_, ?_, ?_, ?_, ?_, ?_, ?_, ?_⟩
  · intro hlk; exact pyStr_default hlk
  · intro hlk; exact pyInt_default_zero hlk h1
  · intro hlk; exact pyInt_default_zero hlk h2
  · intro hlk; exact pyStr_default hlk
  · intro hlk; exact pyBool_default hlk
  · intro hlk; exact pyBool_default hlk
  · intro hlk; exact pyInt_default_zero hlk h3
  · intro hlk; exact pyInt_default_zero hlk h4
  · intro hlk; exact pyInt_default_zero hlk h5

/-- C7 witness: a payload holding only an unknown field parses with no
error, full raw passthrough, and defaults for the absent known fields. -/
theorem c7_missing_fields_default_witness :
    (fetch_status (.ok (.obj [("extra", .num 7)]))).last_error = none ∧
    (fetch_status (.ok (.obj [("extra", .num 7)]))).raw = [("extra", .num 7)] ∧
    (fetch_status (.ok (.obj [("extra", .num 7)]))).mode = "UNKNOWN" ∧
    (fetch_status (.ok (.obj [("extra", .num 7)]))).paddle = 0 ∧
    (fetch_status (.ok (.obj [("extra", .num 7)]))).override = "off" ∧
    (fetch_status (.ok (.obj [("extra", .num 7)]))).gesture_enabled = true :=
  ⟨(c7_missing_fields_default [("extra", .num 7)] (by decide) (by decide) (by decide)
      (by decide) (by decide)).1,
    (c7_missing_fields_default [("extra", .num 7)] (by decide) (by decide) (by decide)
      (by decide) (by decide)).2.1,
    (c7_missing_fields_default [("extra", .num 7)] (by decide) (by decide) (by decide)
      (by decide) (by decide)).2.2.1 rfl,
    (c7_missing_fields_default [("extra", .num 7)] (by decide) (by decide) (by decide)
      (by decide) (by decide)).2.2.2.1 rfl,
    (c7_missing_fields_default [("extra", .num 7)] (by decide) (by decide) (by decide)
      (by decide) (by decide)).2.2.2.2.2.1 rfl,
    (c7_missing_fields_default [("extra", .num 7)] (by decide) (by decide) (by decide)
      (by decide) (by decide)).2.2.2.2.2.2.2.1 rfl⟩

/-- C3 counterexample: after a failed poll cycle the remote source publishes
a fresh default reading — the previously published weight of 30 g is reset
to 0, not carried forward; only a diagnostic note survives. -/
theorem c3_counterexample :
    (CloudLaMarzoccoSource.pollCycle { ShotMetrics.initial with weight_g := 30 }
        (.getFailure "timeout")).weight_g = 0 ∧
    ({ ShotMetrics.initial with weight_g := 30 } : ShotMetrics).weight_g = 30 ∧
    (0 : ℚ) ≠ 30 ∧
    (CloudLaMarzoccoSource.pollCycle { ShotMetrics.initial with weight_g := 30 }
        (.getFailure "timeout")).notes = "Cloud error: " ++ "timeout" :=
  ⟨rfl, rfl, by norm_num, rfl⟩

/-- C3 (amended): only after a successful poll cycle in which dashboard data
is present and parses without an exception are the fields the cloud feed
cannot provide (weight, flow, pressure, group temperature, scale state)
carried forward unchanged from the previously published reading; a failed
cycle or a missing dashboard publishes a default reading whose numeric
fields are reset and only the diagnostic note informs about the failure. -/
theorem c3_carry_forward (data : JsonVal) (prev : ShotMetrics) (nowMs : ℚ)
    (snap : ShotMetrics)
    (h : CloudLaMarzoccoSource.parse_dashboard (some data) prev nowMs = .ok snap) :
    CloudLaMarzoccoSource.pollCycle prev (.gotDashboard (some data) nowMs) = snap ∧
    snap.weight_g = prev.weight_g ∧
    snap.flow_g_s = prev.flow_g_s ∧
    snap.pressure_bar = prev.pressure_bar ∧
    snap.group_temp_c = prev.group_temp_c ∧
    snap.scale_connected = prev.scale_connected := by
  refine ⟨by simp [CloudLaMarzoccoSource.pollCycle, h], ?_⟩
  simp only [CloudLaMarzoccoSource.parse_dashboard] at h
  cases ha : CloudLaMarzoccoSource.parseArgs data nowMs with
  | error e => rw [ha] at h; simp [Except.map] at h
  | ok a =>
    rw [ha] at h
    simp only [Except.map, Except.ok.injEq] at h
    rw [← h]
    exact ⟨rfl, rfl, rfl, rfl, rfl⟩

/-- C3 witness: a successful empty-widget dashboard cycle carries the
previous weight, flow, pressure, group temperature and scale state into the
published reading. -/
theorem c3_carry_forward_witness :
    CloudLaMarzoccoSource.pollCycle
        { ShotMetrics.initial with
            weight_g := 30
            flow_g_s := 2
            pressure_bar := 9
            group_temp_c := 93
            scale_connected := true }
        (.gotDashboard (some (.obj [("widgets", .arr [])])) 5000) =
      { weight_g := 30
        flow_g_s := 2
        shot_time_ms := 0
        target_weight_g := 0
        pressure_bar := 9
        boiler_temp_c := 0
        group_temp_c := 93
        brew_state := "UNKNOWN"
        scale_connected := true
        notes := "Cloud dashboard" } ∧
    ({ weight_g := 30
       flow_g_s := 2
       shot_time_ms := 0
       target_weight_g := 0
       pressure_bar := 9
       boiler_temp_c := 0
       group_temp_c := 93
       brew_state := "UNKNOWN"
       scale_connected := true
       notes := "Cloud dashboard" } : ShotMetrics).weight_g =
      ({ ShotMetrics.initial with
          weight_g := 30
          flow_g_s := 2
          pressure_bar := 9
          group_temp_c := 93
          scale_connected := true } : ShotMetrics).weight_g :=
  ⟨(c3_carry_forward (.obj [("widgets", .arr [])])
      { ShotMetrics.initial with
          weight_g := 30
          flow_g_s := 2
          pressure_bar := 9
          group_temp_c := 93
          scale_connected := true } 5000 _ rfl).1,
    (c3_carry_forward (.obj [("widgets", .arr [])])
      { ShotMetrics.initial with
          weight_g := 30
          flow_g_s := 2
          pressure_bar := 9
          group_temp_c := 93
          scale_connected := true } 5000 _ rfl).2.1⟩

section

open SimulatedLaMarzoccoSource

/-- C4 counterexample: from an idle simulator whose previous tick lies 100 s
in the past, a paddle-1 notify followed immediately by snapshot() does
return BREWING and shot time 0, but the jitter flow integrates over the
whole 100 s gap: weight_g is 10 g, not 0. -/
theorem c4_counterexample :
    ((init 36 0)).shot_active = false ∧
    ({ paddle := 1 } : ArduinoStatus).paddle = 1 ∧
    (get_snapshot 100 ⟨1/10, 0, 0, 0⟩
        (notify_arduino { paddle := 1 } 100 (init 36 0))).1.brew_state = "BREWING" ∧
    (get_snapshot 100 ⟨1/10, 0, 0, 0⟩
        (notify_arduino { paddle := 1 } 100 (init 36 0))).1.shot_time_ms = 0 ∧
    (get_snapshot 100 ⟨1/10, 0, 0, 0⟩
        (notify_arduino { paddle := 1 } 100 (init 36 0))).1.weight_g = 10 ∧
    (10 : ℚ) ≠ 0 := by
  refine ⟨rfl, rfl, ?_, ?_, ?_, by norm_num⟩ <;>
    · simp only [get_snapshot, notify_arduino, tick, init]
      norm_num [round1, roundHalfEven, pyTrunc]

/-- C4 (amended): from an idle state, a paddle-1 notify followed immediately
by snapshot() yields brew_state BREWING and shot_time_ms exactly 0; and
provided the flow jitter is within its documented 0.1 bound and at most
0.4 s elapsed since the previous tick, weight_g is exactly 0 (with an
arbitrarily long gap since the previous tick the jitter flow integrates
over the whole gap, so weight_g need not be 0). -/
theorem c4_paddle_close_starts_brewing (s : SimState) (status : ArduinoStatus)
    (now : ℚ) (j : Jitter) (hs : s.shot_active = false) (hp : status.paddle = 1)
    (hj : j.flow_j ≤ 1/10) (hdt : now - s.last_update ≤ 2/5) :
    (get_snapshot now j (notify_arduino status now s)).1.brew_state = "BREWING" ∧
    (get_snapshot now j (notify_arduino status now s)).1.shot_time_ms = 0 ∧
    (get_snapshot now j (notify_arduino status now s)).1.weight_g = 0 := by
  have hn : notify_arduino status now s =
      { s with shot_active := true, shot_start := now, weight := 0, flow := 0 } := by
    simp [notify_arduino, hp, hs]
  rw [hn]
  have hact : (tick now j
      ({ s with shot_active := true, shot_start := now, weight := 0, flow := 0 }
        : SimState)).shot_active = true := by
    rw [tick_shot_active]
  have hstart : (tick now j
      ({ s with shot_active := true, shot_start := now, weight := 0, flow := 0 }
        : SimState)).shot_start = now := by
    rw [tick_shot_start]
  refine ⟨?_, ?_, ?_⟩
  · rw [get_snapshot_brew_state, hact, if_pos rfl]
  · rw [get_snapshot_shot_time, hact, if_pos rfl, hstart, sub_self, zero_mul]
    norm_num [pyTrunc]
  · rw [get_snapshot_weight_g]
    rw [tick_fresh_shot_weight now j
      { s with shot_active := true, shot_start := now, weight := 0, flow := 0 } rfl rfl rfl]
    have hf0 : (0 : ℚ) ≤ max 0 j.flow_j := le_max_left _ _
    have hf1 : max 0 j.flow_j ≤ 1/10 := max_le (by norm_num) hj
    have hd0 : (0 : ℚ) ≤ max (1/1000) (now - s.last_update) :=
      le_trans (by norm_num) (le_max_left _ _)
    have hd1 : max (1/1000) (now - s.last_update) ≤ 2/5 := max_le (by norm_num) hdt
    have hw0 : (0 : ℚ) ≤ max 0 j.flow_j * max (1/1000) (now - s.last_update) :=
      mul_nonneg hf0 hd0
    have hw1 : max 0 j.flow_j * max (1/1000) (now - s.last_update) ≤ 1/25 := by
      calc max 0 j.flow_j * max (1/1000) (now - s.last_update) ≤ (1/10) * (2/5) :=
            mul_le_mul hf1 hd1 hd0 (by norm_num)
        _ = 1/25 := by norm_num
    have hz : roundHalfEven
        (max 0 j.flow_j * max (1/1000) (now - s.last_update) * 10) = 0 :=
      roundHalfEven_eq_zero (by nlinarith) (by nlinarith)
    rw [round1, hz]
    norm_num

/-- C4 witness: paddle close then immediate snapshot with jitter 0.1 and a
0.3 s-old previous tick yields BREWING, shot time 0 and weight 0. -/
theorem c4_paddle_close_starts_brewing_witness :
    (get_snapshot (3/10) ⟨1/10, 0, 0, 0⟩
        (notify_arduino { paddle := 1 } (3/10) (init 36 0))).1.brew_state = "BREWING" ∧
    (get_snapshot (3/10) ⟨1/10, 0, 0, 0⟩
        (notify_arduino { paddle := 1 } (3/10) (init 36 0))).1.shot_time_ms = 0 ∧
    (get_snapshot (3/10) ⟨1/10, 0, 0, 0⟩
        (notify_arduino { paddle := 1 } (3/10) (init 36 0))).1.weight_g = 0 :=
  c4_paddle_close_starts_brewing (init 36 0) { paddle := 1 } (3/10) ⟨1/10, 0, 0, 0⟩
    rfl rfl (by norm_num) (by norm_num [init])

/-- C5: while a shot is active, the accumulated internal weight never
decreases across any sequence of ticks and snapshots — and hence the
rounded weight_g reported by successive get_snapshot calls never decreases
either, for every choice of clock readings and jitter draws. -/
theorem c5_weight_monotone (s : SimState) (ticks : List (ℚ × Jitter))
    (n1 n2 : ℚ) (j1 j2 : Jitter) (ha : s.shot_active = true) :
    s.weight ≤ (get_snapshot n1 j1 s).2.weight ∧
    (get_snapshot n1 j1 s).2.weight ≤
      (get_snapshot n2 j2 (runTicks ticks (get_snapshot n1 j1 s).2)).2.weight ∧
    (get_snapshot n1 j1 s).1.weight_g ≤
      (get_snapshot n2 j2 (runTicks ticks (get_snapshot n1 j1 s).2)).1.weight_g := by
  have ha1 : (tick n1 j1 s).shot_active = true := by
    rw [tick_shot_active]; exact ha
  have ha2 : (runTicks ticks (tick n1 j1 s)).shot_active = true := by
    rw [runTicks_shot_active]; exact ha1
  have w1 : s.weight ≤ (tick n1 j1 s).weight := tick_weight_le_active _ _ _ ha
  have w2 : (tick n1 j1 s).weight ≤ (runTicks ticks (tick n1 j1 s)).weight :=
    runTicks_weight_le_active _ _ ha1
  have w3 : (runTicks ticks (tick n1 j1 s)).weight ≤
      (tick n2 j2 (runTicks ticks (tick n1 j1 s))).weight :=
    tick_weight_le_active _ _ _ ha2
  refine ⟨w1, le_trans w2 w3, ?_⟩
  rw [get_snapshot_weight_g, get_snapshot_weight_g, get_snapshot_snd]
  exact max_le_max (le_refl 0) (round1_mono (le_trans w2 w3))

/-- C5 witness: two snapshots separated by two further ticks of an active
shot report non-decreasing weight. -/
theorem c5_weight_monotone_witness :
    (⟨36, true, 0, 0, 0, 0, 94, 93, 0⟩ : SimState).weight ≤
      (get_snapshot (1/2) ⟨1/10, 0, 0, 0⟩
        (⟨36, true, 0, 0, 0, 0, 94, 93, 0⟩ : SimState)).2.weight ∧
    (get_snapshot (1/2) ⟨1/10, 0, 0, 0⟩
        (⟨36, true, 0, 0, 0, 0, 94, 93, 0⟩ : SimState)).2.weight ≤
      (get_snapshot 3 ⟨0, 0, 0, 0⟩
        (runTicks [(1, ⟨1/10, 0, 0, 0⟩), (2, ⟨-1/10, 0, 0, 0⟩)]
          (get_snapshot (1/2) ⟨1/10, 0, 0, 0⟩
            (⟨36, true, 0, 0, 0, 0, 94, 93, 0⟩ : SimState)).2)).2.weight ∧
    (get_snapshot (1/2) ⟨1/10, 0, 0, 0⟩
        (⟨36, true, 0, 0, 0, 0, 94, 93, 0⟩ : SimState)).1.weight_g ≤
      (get_snapshot 3 ⟨0, 0, 0, 0⟩
        (runTicks [(1, ⟨1/10, 0, 0, 0⟩), (2, ⟨-1/10, 0, 0, 0⟩)]
          (get_snapshot (1/2) ⟨1/10, 0, 0, 0⟩
            (⟨36, true, 0, 0, 0, 0, 94, 93, 0⟩ : SimState)).2)).1.weight_g :=
  c5_weight_monotone ⟨36, true, 0, 0, 0, 0, 94, 93, 0⟩
    [(1, ⟨1/10, 0, 0, 0⟩), (2, ⟨-1/10, 0, 0, 0⟩)] (1/2) 3 ⟨1/10, 0, 0, 0⟩ ⟨0, 0, 0, 0⟩ rfl

/-- C6: a paddle-0 notify during an active shot deactivates the shot and
zeroes the flow, and every idle tick thereafter multiplies flow by 0.9,
never increases a non-negative weight (multiplying it by 0.999, clamped to
exactly 0 once the decayed value falls below the 0.05 g epsilon) and
multiplies pressure by 0.8. -/
theorem c6_idle_decay (status : ArduinoStatus) (now : ℚ) (s : SimState)
    (hp : status.paddle = 0) (ha : s.shot_active = true) :
    ((notify_arduino status now s).shot_active = false ∧
      (notify_arduino status now s).flow = 0) ∧
    (∀ (s2 : SimState) (now2 : ℚ) (j : Jitter),
      s2.shot_active = false → 0 ≤ s2.weight →
        (tick now2 j s2).flow = s2.flow * (9/10) ∧
        (tick now2 j s2).weight ≤ s2.weight ∧
        (s2.weight * (999/1000) < 1/20 → (tick now2 j s2).weight = 0) ∧
        (¬ s2.weight * (999/1000) < 1/20 →
          (tick now2 j s2).weight = s2.weight * (999/1000)) ∧
        (tick now2 j s2).pressure = s2.pressure * (8/10)) := by
  constructor
  · simp [notify_arduino, hp, ha]
  · intro s2 now2 j h2 hw
    simp only [tick, h2, Bool.false_eq_true, if_false]
    refine ⟨by trivial, ?_, ?_, ?_, by trivial⟩
    · split_ifs with hlt
      · exact hw
      · nlinarith
    · intro hlt; rw [if_pos hlt]
    · intro hlt; rw [if_neg hlt]

/-- C6 witness: stopping a 10 g shot and ticking once multiplies flow by
0.9, pressure by 0.8 and decays the weight to 9.99 g. -/
theorem c6_idle_decay_witness :
    (tick 6 ⟨0, 0, 0, 0⟩ (⟨36, false, 0, 10, 2, 9, 94, 93, 5⟩ : SimState)).flow =
        (⟨36, false, 0, 10, 2, 9, 94, 93, 5⟩ : SimState).flow * (9/10) ∧
    (tick 6 ⟨0, 0, 0, 0⟩ (⟨36, false, 0, 10, 2, 9, 94, 93, 5⟩ : SimState)).weight ≤
        (⟨36, false, 0, 10, 2, 9, 94, 93, 5⟩ : SimState).weight ∧
    ((⟨36, false, 0, 10, 2, 9, 94, 93, 5⟩ : SimState).weight * (999/1000) < 1/20 →
      (tick 6 ⟨0, 0, 0, 0⟩ (⟨36, false, 0, 10, 2, 9, 94, 93, 5⟩ : SimState)).weight = 0) ∧
    (¬ (⟨36, false, 0, 10, 2, 9, 94, 93, 5⟩ : SimState).weight * (999/1000) < 1/20 →
      (tick 6 ⟨0, 0, 0, 0⟩ (⟨36, false, 0, 10, 2, 9, 94, 93, 5⟩ : SimState)).weight =
        (⟨36, false, 0, 10, 2, 9, 94, 93, 5⟩ : SimState).weight * (999/1000)) ∧
    (tick 6 ⟨0, 0, 0, 0⟩ (⟨36, false, 0, 10, 2, 9, 94, 93, 5⟩ : SimState)).pressure =
        (⟨36, false, 0, 10, 2, 9, 94, 93, 5⟩ : SimState).pressure * (8/10) :=
  (c6_idle_decay { paddle := 0 } 5 ⟨36, true, 0, 10, 2, 9, 94, 93, 0⟩ rfl rfl).2
    ⟨36, false, 0, 10, 2, 9, 94, 93, 5⟩ 6 ⟨0, 0, 0, 0⟩ rfl (by norm_num)

end

end LaMarzoccoBBW
